import Mathlib

/-!
Verification of the ATLAS real-time telemetry fan-out and derived-state
engine (spec.md) against the repository source.

The embedding below translates the relevant server code:
  * `src/server/ai-engine.ts` (routes part): `SENSOR_CONFIGS`,
    `generateSensorData` (status derivation, neutron-flux rounding, alert
    dedup check), `performAiAnalysis` (confidence clamp), the WebSocket
    connection handshake and `broadcast`, and the alert-deactivation route.
  * `src/unnamed/part_002` (storage.ts): `createSensorData`,
    `getLatestSensorData`, `createAlert`, `deactivateAlert`.
  * `src/unnamed/part_000` (reactor-scenarios.ts): `startScenario`,
    `stopScenario`, `executeCurrentPhase` and its alert conditions.
  * `src/shared/schema.ts`: column shapes; in particular the NOT NULL
    columns `sensor_node_id` and `alert_type` of the `alerts` table.

JavaScript numbers are modelled as exact rationals plus an explicit NaN
constructor (`JVal`); JS comparisons involving NaN or `undefined` are
false, which the comparison helpers reproduce. Database tables are lists
of rows in insertion order; the storage layer assigns ids and timestamps,
passed here as explicit parameters. Timestamps are naturals.
-/

namespace Atlas

/-! ## Threshold evaluation (ai-engine.ts routes part, lines 604-608)

`generateSensorData` derives the status inline:
```
let status = "normal";
if (value > config.threshold) {
  status = config.maxValue && value > config.maxValue * 0.9 ? "critical" : "warning";
}
```
-/

/-- Sensor status strings "normal" / "warning" / "critical". -/
inductive Status where
  | normal
  | warning
  | critical
deriving DecidableEq, Repr

/-- A JavaScript numeric value: an exact rational or NaN. -/
inductive JVal where
  | num (q : ℚ)
  | nan
deriving DecidableEq, Repr

/-- JS `>` on numbers: any comparison with NaN is false. -/
def jsGt : JVal → JVal → Bool
  | .num a, .num b => decide (b < a)
  | _, _ => false

/-- JS `value > threshold` where the threshold may be absent
(`undefined`): comparing with `undefined` coerces to NaN and is false. -/
def jsGtOpt (v : JVal) : Option ℚ → Bool
  | some t => jsGt v (.num t)
  | none => false

/-- Status derivation inlined in `generateSensorData`
(ai-engine.ts routes part, lines 604-608). The guard
`config.maxValue && ...` is JS truthiness: an absent `maxValue` is
`undefined` (falsy) and a zero `maxValue` is falsy as well, hence the
`decide (m ≠ 0)` conjunct. -/
def determineStatus (value : JVal) (threshold maxValue : Option ℚ) : Status :=
  if jsGtOpt value threshold then
    match maxValue with
    | some m =>
        if decide (m ≠ 0) && jsGt value (.num (m * (9/10))) then Status.critical
        else Status.warning
    | none => Status.warning
  else Status.normal

/-! ## Sensor configurations (ai-engine.ts routes part, lines 513-537) -/

/-- One entry of `SENSOR_CONFIGS`. `threshold` and `maxValue` are typed
optional because the schema columns are nullable and the status rule
must handle their absence; every entry of the static list sets both. -/
structure SensorConfig where
  nodeId : String
  sensorType : String
  unit : String
  baseValue : ℚ
  variance : ℚ
  threshold : Option ℚ
  maxValue : Option ℚ
  location : String
deriving DecidableEq, Repr

/-- The static nuclear sensor configuration list
(ai-engine.ts routes part, lines 513-537). -/
def SENSOR_CONFIGS : List SensorConfig := [
  ⟨"CORE-TEMP-01", "temperature", "°C", 580, 8, some 590, some 620, "AWS"⟩,
  ⟨"CORE-TEMP-02", "temperature", "°C", 575, 10, some 590, some 620, "Ubuntu"⟩,
  ⟨"PRES-PRI-01", "pressure", "MPa", 15.5, 0.3, some 16.2, some 17.5, "AWS"⟩,
  ⟨"PRES-SEC-01", "pressure", "MPa", 7.0, 0.2, some 7.8, some 8.5, "Ubuntu"⟩,
  ⟨"RAD-CORE-01", "radiation", "mSv/h", 2.1, 0.2, some 4.5, some 8.0, "AWS"⟩,
  ⟨"RAD-CONT-01", "radiation", "mSv/h", 0.8, 0.1, some 2.0, some 5.0, "Ubuntu"⟩,
  ⟨"COOL-PRI-01", "coolant_flow", "L/s", 1247, 30, some 1180, some 1400, "AWS"⟩,
  ⟨"COOL-SEC-01", "coolant_flow", "L/s", 890, 25, some 850, some 950, "Ubuntu"⟩,
  ⟨"NEUT-FLUX-01", "neutron_flux", "n/cm²s", 2.8e14, 0.15e14, some 3.2e14, some 3.8e14, "AWS"⟩,
  ⟨"NEUT-FLUX-02", "neutron_flux", "n/cm²s", 2.9e14, 0.18e14, some 3.2e14, some 3.8e14, "Ubuntu"⟩,
  ⟨"CTRL-ROD-01", "control_rods", "%", 68, 2, some 72, some 100, "AWS"⟩,
  ⟨"CTRL-ROD-02", "control_rods", "%", 65, 3, some 72, some 100, "Ubuntu"⟩]

/-! ## Sample generation (ai-engine.ts routes part, lines 598-624) -/

/-- The generated raw value:
`config.baseValue + (Math.random() - 0.5) * config.variance`, with
`rand` standing for the `Math.random()` draw. -/
def generatedValue (c : SensorConfig) (rand : ℚ) : ℚ :=
  c.baseValue + (rand - 1/2) * c.variance

/-- JS `parseFloat(q.toFixed(1))`: round to one decimal place.
`Number.prototype.toFixed` rounds to nearest; ties at the half are
rounded up for the positive values produced here. -/
def toFixed1 (q : ℚ) : ℚ := (round (q * 10) : ℤ) / 10

/-- Payload handed to `storage.createSensorData` (the `InsertSensorData`
shape of shared/schema.ts). -/
structure InsertSensorData where
  nodeId : String
  sensorType : String
  value : ℚ
  unit : String
  status : Status
  threshold : Option ℚ
  maxValue : Option ℚ
deriving DecidableEq, Repr

/-- One iteration of `generateSensorData` for config `c`
(ai-engine.ts routes part, lines 599-624): draw the value, derive the
status from the *unrounded* value, then — only for `neutron_flux`
sensors — replace the value by
`parseFloat((value / 1e14).toFixed(1)) * 1e14` before persisting. -/
def generateSensorReading (c : SensorConfig) (rand : ℚ) : InsertSensorData :=
  let value := generatedValue c rand
  let status := determineStatus (.num value) c.threshold c.maxValue
  let value2 := if c.sensorType = "neutron_flux" then toFixed1 (value / 1e14) * 1e14 else value
  { nodeId := c.nodeId, sensorType := c.sensorType, value := value2, unit := c.unit,
    status := status, threshold := c.threshold, maxValue := c.maxValue }

end Atlas

namespace Atlas

/-- Spec-style characterisation of `determineStatus` for a present,
nonzero `maxValue` (every static config has a positive one). -/
lemma determineStatus_spec (v t m : ℚ) (hm : m ≠ 0) :
    (determineStatus (.num v) (some t) (some m) = Status.critical ↔ v > t ∧ v > m * (9/10)) ∧
    (determineStatus (.num v) (some t) (some m) = Status.warning ↔ v > t ∧ ¬ v > m * (9/10)) ∧
    (determineStatus (.num v) (some t) (some m) = Status.normal ↔ ¬ v > t) := by
  by_cases h1 : t < v <;> by_cases h2 : m * (9/10) < v <;>
    simp [determineStatus, jsGtOpt, jsGt, h1, h2, hm, gt_iff_lt]

/-- Behaviour of `determineStatus` with a present threshold but absent `maxValue`. -/
lemma determineStatus_noMax (v t : ℚ) :
    determineStatus (.num v) (some t) none ≠ Status.critical ∧
    (v > t → determineStatus (.num v) (some t) none = Status.warning) := by
  by_cases h1 : t < v <;> simp [determineStatus, jsGtOpt, jsGt, h1, gt_iff_lt]

/-- The status stored in a generated reading is the status of the
unrounded generated value. -/
lemma generateSensorReading_status (c : SensorConfig) (rand : ℚ) :
    (generateSensorReading c rand).status
      = determineStatus (.num (generatedValue c rand)) c.threshold c.maxValue := rfl

/-- C1. For every generated sensor reading (any config of
`SENSOR_CONFIGS`, whose threshold and maxValue are always set), the
derived status is "critical" iff the value exceeds both the threshold
and 90% of maxValue, "warning" iff it exceeds the threshold but not the
critical bound, and "normal" otherwise; with maxValue unset any value
above the threshold gives "warning", never "critical"; and for the
CORE-TEMP-01 parameters (threshold 590, maxValue 620) a value of 605 is
"critical" since 605 > 590 and 605 > 558. -/
theorem claim_C1 :
    (∀ c ∈ SENSOR_CONFIGS, ∀ (rand t m : ℚ),
      c.threshold = some t → c.maxValue = some m →
      ((generateSensorReading c rand).status = Status.critical ↔
          generatedValue c rand > t ∧ generatedValue c rand > m * (9/10)) ∧
      ((generateSensorReading c rand).status = Status.warning ↔
          generatedValue c rand > t ∧ ¬ generatedValue c rand > m * (9/10)) ∧
      ((generateSensorReading c rand).status = Status.normal ↔
          ¬ generatedValue c rand > t)) ∧
    (∀ v t : ℚ, determineStatus (.num v) (some t) none ≠ Status.critical ∧
      (v > t → determineStatus (.num v) (some t) none = Status.warning)) ∧
    determineStatus (.num 605) (some 590) (some 620) = Status.critical := by
  refine ⟨?_, determineStatus_noMax, ?_⟩
  · intro c hc rand t m ht hm
    rw [generateSensorReading_status, ht, hm]
    have hm0 : m ≠ 0 := by
      fin_cases hc <;> (injection hm with hm; rw [← hm]; norm_num)
    exact determineStatus_spec (generatedValue c rand) t m hm0
  · have := (determineStatus_spec 605 590 620 (by norm_num)).1
    rw [this]; norm_num

/-- Witness for C1: the first config instantiated at a concrete random
draw, and the unset-maxValue clause at 700 > 590. -/
theorem claim_C1_witness :
    ((generateSensorReading ⟨"CORE-TEMP-01", "temperature", "°C", 580, 8, some 590, some 620, "AWS"⟩ 1).status = Status.critical ↔
      generatedValue ⟨"CORE-TEMP-01", "temperature", "°C", 580, 8, some 590, some 620, "AWS"⟩ 1 > 590 ∧
      generatedValue ⟨"CORE-TEMP-01", "temperature", "°C", 580, 8, some 590, some 620, "AWS"⟩ 1 > 620 * (9/10)) ∧
    determineStatus (.num 700) (some 590) none = Status.warning :=
  ⟨(claim_C1.1 _ (List.mem_cons_self _ _) 1 590 620 rfl rfl).1,
   (claim_C1.2.1 700 590).2 (by norm_num)⟩

/-- C5. With the threshold absent, every value — numeric, negative or
NaN — evaluates to "normal"; the evaluation is a total function, so it
never errors. -/
theorem claim_C5 :
    ∀ (v : JVal) (maxValue : Option ℚ), determineStatus v none maxValue = Status.normal := by
  intro v maxValue
  simp [determineStatus, jsGtOpt]

/-! ## Sensor-data storage (part_002 / storage.ts, lines 77-107)

The `sensor_data` table is a list of rows in insertion order (a SELECT
without ORDER BY is idealised as returning insertion order, which is
also what the spec's Latest-Value Store contract assumes). The storage
layer assigns `id` and the default `timestamp`; both appear here as
explicit parameters of the insert. -/

/-- A persisted `sensor_data` row (shared/schema.ts, lines 5-15). -/
structure SensorRow where
  id : ℕ
  nodeId : String
  sensorType : String
  value : ℚ
  unit : String
  status : Status
  threshold : Option ℚ
  maxValue : Option ℚ
  timestamp : ℕ
deriving DecidableEq, Repr

/-- Function `createSensorData` (storage.ts, lines 77-88): insert one row with
the payload's fields and the storage-assigned id and timestamp. -/
def createSensorData (rows : List SensorRow) (d : InsertSensorData) (id ts : ℕ) :
    List SensorRow :=
  rows ++ [{ id := id, nodeId := d.nodeId, sensorType := d.sensorType, value := d.value,
             unit := d.unit, status := d.status, threshold := d.threshold,
             maxValue := d.maxValue, timestamp := ts }]

/-- Lookup in the insertion-ordered JS `Map` (`grouped.get`). -/
def mapGet (m : List (String × SensorRow)) (k : String) : Option SensorRow :=
  (m.find? fun p => p.1 == k).map (·.2)

/-- Update in the insertion-ordered JS `Map` (`grouped.set`): an
existing key keeps its position (its entry is replaced in place), a new
key is appended at the end. -/
def mapSet : List (String × SensorRow) → String → SensorRow → List (String × SensorRow)
  | [], k, v => [(k, v)]
  | p :: m, k, v => if p.1 = k then (k, v) :: m else p :: mapSet m k v

/-- The body of the `result.forEach` in `getLatestSensorData`
(storage.ts, lines 99-104): replace the grouped entry only when the new
row's timestamp is strictly greater. -/
def latestStep (m : List (String × SensorRow)) (data : SensorRow) :
    List (String × SensorRow) :=
  match mapGet m data.nodeId with
  | some existing =>
      if existing.timestamp < data.timestamp then mapSet m data.nodeId data else m
  | none => mapSet m data.nodeId data

/-- Function `getLatestSensorData` (storage.ts, lines 94-107): fold all rows into
the keyed map and return its values. -/
def getLatestSensorData (rows : List SensorRow) : List SensorRow :=
  (rows.foldl latestStep []).map (·.2)

/-- The per-key effect of one `latestStep`, as an accumulator function:
keep the existing row unless the new one is strictly newer. -/
def pickLatest : Option SensorRow → SensorRow → Option SensorRow
  | none, d => some d
  | some ex, d => some (if ex.timestamp < d.timestamp then d else ex)

lemma mapGet_mapSet_self (m : List (String × SensorRow)) (k : String) (v : SensorRow) :
    mapGet (mapSet m k v) k = some v := by
  induction m with
  | nil => simp [mapGet, mapSet, List.find?_cons]
  | cons p m ih =>
      by_cases hp : p.1 = k
      · simp [mapGet, mapSet, hp, List.find?_cons]
      · simpa [mapGet, mapSet, hp, List.find?_cons] using ih

lemma mapGet_mapSet_ne (m : List (String × SensorRow)) (k k' : String) (v : SensorRow)
    (h : k' ≠ k) : mapGet (mapSet m k v) k' = mapGet m k' := by
  have hkk : (k == k') = false := by simp [Ne.symm h]
  induction m with
  | nil => simp [mapGet, mapSet, List.find?_cons, hkk]
  | cons p m ih =>
      by_cases hp : p.1 = k
      · have hp' : ¬ p.1 = k' := by rw [hp]; exact fun hc => h hc.symm
        simp [mapGet, mapSet, hp, hp', List.find?_cons, hkk]
      · by_cases hp' : p.1 = k'
        · simp [mapGet, mapSet, hp, hp', h, List.find?_cons]
        · simpa [mapGet, mapSet, hp, hp', List.find?_cons] using ih

lemma mapGet_latestStep (m : List (String × SensorRow)) (d : SensorRow) (k : String) :
    mapGet (latestStep m d) k =
      if d.nodeId = k then pickLatest (mapGet m k) d else mapGet m k := by
  unfold latestStep
  by_cases hk : d.nodeId = k
  · subst hk
    rcases hget : mapGet m d.nodeId with _ | ex
    · simp [hget, mapGet_mapSet_self, pickLatest]
    · simp only [hget, pickLatest, if_pos rfl]
      by_cases hts : ex.timestamp < d.timestamp
      · simp [hts, mapGet_mapSet_self]
      · simp [hts, hget]
  · rcases hget : mapGet m d.nodeId with _ | ex
    · simp [hget, mapGet_mapSet_ne m d.nodeId k d (fun hc => hk hc.symm), hk]
    · by_cases hts : ex.timestamp < d.timestamp
      · simp [hget, hts, mapGet_mapSet_ne m d.nodeId k d (fun hc => hk hc.symm), hk]
      · simp [hget, hts, hk]

/-- Folding the rows into the map computes, per key, a `pickLatest` fold
over the rows carrying that key. -/
lemma mapGet_foldl_latestStep (rows : List SensorRow) :
    ∀ (m : List (String × SensorRow)) (k : String),
      mapGet (rows.foldl latestStep m) k =
        (rows.filter fun r => r.nodeId == k).foldl pickLatest (mapGet m k) := by
  induction rows with
  | nil => intro m k; rfl
  | cons d rest ih =>
      intro m k
      rw [List.foldl_cons, ih]
      by_cases hk : d.nodeId = k
      · simp [List.filter_cons, hk, mapGet_latestStep]
      · have hbeq : (d.nodeId == k) = false := by simp [hk]
        simp [List.filter_cons, hk, hbeq, mapGet_latestStep]

/-- Well-formedness of the grouped map: keys are distinct and every
entry is stored under its own row's nodeId. -/
def StoreWF (m : List (String × SensorRow)) : Prop :=
  (m.map Prod.fst).Nodup ∧ ∀ p ∈ m, p.2.nodeId = p.1

lemma keys_mapSet_of_mem (m : List (String × SensorRow)) (k : String) (v : SensorRow)
    (hk : k ∈ m.map Prod.fst) : (mapSet m k v).map Prod.fst = m.map Prod.fst := by
  induction m with
  | nil => simp at hk
  | cons p m ih =>
      by_cases hp : p.1 = k
      · simp [mapSet, hp]
      · have hk' : k ∈ m.map Prod.fst := by
          rw [List.map_cons] at hk
          rcases List.mem_cons.mp hk with h | h
          · exact absurd h.symm hp
          · exact h
        simp [mapSet, hp, ih hk']

lemma keys_mapSet_of_not_mem (m : List (String × SensorRow)) (k : String) (v : SensorRow)
    (hk : k ∉ m.map Prod.fst) : (mapSet m k v).map Prod.fst = m.map Prod.fst ++ [k] := by
  induction m with
  | nil => simp [mapSet]
  | cons p m ih =>
      have hp : ¬ p.1 = k := fun hc => hk (by simp [hc])
      have hk' : k ∉ m.map Prod.fst := fun hc => hk (by simp [hc])
      simp [mapSet, hp, ih hk']

lemma mem_mapSet (m : List (String × SensorRow)) (k : String) (v : SensorRow) :
    ∀ p ∈ mapSet m k v, p = (k, v) ∨ p ∈ m := by
  induction m with
  | nil => intro p hp; simpa [mapSet] using hp
  | cons q m ih =>
      intro p hp
      by_cases hq : q.1 = k
      · rcases List.mem_cons.mp (by simpa [mapSet, hq] using hp) with h | h
        · exact Or.inl h
        · exact Or.inr (List.mem_cons_of_mem q h)
      · rcases List.mem_cons.mp (by simpa [mapSet, hq] using hp) with h | h
        · exact Or.inr (h ▸ List.mem_cons_self q m)
        · rcases ih p h with h' | h'
          · exact Or.inl h'
          · exact Or.inr (List.mem_cons_of_mem q h')

lemma storeWF_mapSet (m : List (String × SensorRow)) (v : SensorRow)
    (hwf : StoreWF m) : StoreWF (mapSet m v.nodeId v) := by
  obtain ⟨hnd, hown⟩ := hwf
  constructor
  · by_cases hk : v.nodeId ∈ m.map Prod.fst
    · rw [keys_mapSet_of_mem m v.nodeId v hk]; exact hnd
    · rw [keys_mapSet_of_not_mem m v.nodeId v hk]
      rw [List.nodup_append]
      exact ⟨hnd, List.nodup_singleton _, fun a ha hb => by
        simp only [List.mem_singleton] at hb; exact hk (hb ▸ ha)⟩
  · intro p hp
    rcases mem_mapSet m v.nodeId v p hp with h | h
    · rw [h]
    · exact hown p h

lemma storeWF_latestStep (m : List (String × SensorRow)) (d : SensorRow)
    (hwf : StoreWF m) : StoreWF (latestStep m d) := by
  unfold latestStep
  rcases mapGet m d.nodeId with _ | ex
  · exact storeWF_mapSet m d hwf
  · by_cases hts : ex.timestamp < d.timestamp
    · simp only [hts, if_true]; exact storeWF_mapSet m d hwf
    · simp only [hts, if_false]; exact hwf

lemma storeWF_foldl (rows : List SensorRow) :
    ∀ m, StoreWF m → StoreWF (rows.foldl latestStep m) := by
  induction rows with
  | nil => intro m h; exact h
  | cons d rest ih => intro m h; exact ih _ (storeWF_latestStep m d h)

lemma storeWF_nil : StoreWF [] := ⟨List.nodup_nil, by intro p hp; simp at hp⟩

lemma mapGet_of_mem (m : List (String × SensorRow)) (p : String × SensorRow)
    (hnd : (m.map Prod.fst).Nodup) (hp : p ∈ m) : mapGet m p.1 = some p.2 := by
  induction m with
  | nil => simp at hp
  | cons q m ih =>
      rcases List.mem_cons.mp hp with h | h
      · subst h; simp [mapGet, List.find?]
      · by_cases hq : q.1 = p.1
        · exfalso
          simp only [List.map_cons, List.nodup_cons] at hnd
          exact hnd.1 (hq ▸ List.mem_map_of_mem Prod.fst h)
        · simp only [List.map_cons, List.nodup_cons] at hnd
          have hb : (q.1 == p.1) = false := by simp [hq]
          simpa [mapGet, List.find?_cons, hb] using ih hnd.2 h

lemma mem_of_mapGet (m : List (String × SensorRow)) (k : String) (r : SensorRow)
    (h : mapGet m k = some r) : (k, r) ∈ m := by
  unfold mapGet at h
  rcases hfind : m.find? fun p => p.1 == k with _ | p
  · rw [hfind] at h; simp at h
  · rw [hfind] at h
    simp at h
    have hmem := List.mem_of_find?_eq_some hfind
    have hkey : p.1 = k := by simpa using List.find?_some hfind
    have : p = (k, r) := by
      cases p; simp_all
    rw [← this]; exact hmem

/-- Decomposition of a `pickLatest` fold started at `some b`: either the
accumulator survives (everything is no newer), or the result is the
first strictly-newest element of the list. -/
lemma pickLatest_foldl_some (l : List SensorRow) :
    ∀ (b r : SensorRow), l.foldl pickLatest (some b) = some r →
      (r = b ∧ ∀ x ∈ l, x.timestamp ≤ b.timestamp) ∨
      (∃ l₁ l₂, l = l₁ ++ r :: l₂ ∧ b.timestamp < r.timestamp ∧
        (∀ x ∈ l₁, x.timestamp < r.timestamp) ∧ ∀ x ∈ l₂, x.timestamp ≤ r.timestamp) := by
  induction l with
  | nil =>
      intro b r h
      simp only [List.foldl_nil, Option.some_inj] at h
      exact Or.inl ⟨h.symm, by intro x hx; simp at hx⟩
  | cons x xs ih =>
      intro b r h
      rw [List.foldl_cons] at h
      by_cases hx : b.timestamp < x.timestamp
      · have hstep : pickLatest (some b) x = some x := by simp [pickLatest, hx]
        rw [hstep] at h
        rcases ih x r h with ⟨rfl, hall⟩ | ⟨l₁, l₂, rfl, hbr, h1, h2⟩
        · exact Or.inr ⟨[], xs, rfl, hx, by intro y hy; simp at hy, hall⟩
        · refine Or.inr ⟨x :: l₁, l₂, rfl, lt_trans hx hbr, ?_, h2⟩
          intro y hy
          rcases List.mem_cons.mp hy with h' | h'
          · subst h'; exact hbr
          · exact h1 y h'
      · have hstep : pickLatest (some b) x = some b := by simp [pickLatest, hx]
        rw [hstep] at h
        rcases ih b r h with ⟨rfl, hall⟩ | ⟨l₁, l₂, rfl, hbr, h1, h2⟩
        · refine Or.inl ⟨rfl, ?_⟩
          intro y hy
          rcases List.mem_cons.mp hy with h' | h'
          · subst h'; exact le_of_not_gt hx
          · exact hall y h'
        · refine Or.inr ⟨x :: l₁, l₂, rfl, hbr, ?_, h2⟩
          intro y hy
          rcases List.mem_cons.mp hy with h' | h'
          · subst h'; exact lt_of_le_of_lt (le_of_not_gt hx) hbr
          · exact h1 y h'

/-- Decomposition of a `pickLatest` fold started at `none`: the result
is the first element achieving the maximal timestamp. -/
lemma pickLatest_foldl_none (l : List SensorRow) (r : SensorRow)
    (h : l.foldl pickLatest none = some r) :
    ∃ l₁ l₂, l = l₁ ++ r :: l₂ ∧ (∀ x ∈ l₁, x.timestamp < r.timestamp) ∧
      ∀ x ∈ l₂, x.timestamp ≤ r.timestamp := by
  cases l with
  | nil => simp [List.foldl_nil] at h
  | cons x xs =>
      rw [List.foldl_cons] at h
      have hx : pickLatest none x = some x := rfl
      rw [hx] at h
      rcases pickLatest_foldl_some xs x r h with ⟨rfl, hall⟩ | ⟨l₁, l₂, rfl, hbr, h1, h2⟩
      · exact ⟨[], xs, rfl, by intro y hy; simp at hy, hall⟩
      · refine ⟨x :: l₁, l₂, rfl, ?_, h2⟩
        intro y hy
        rcases List.mem_cons.mp hy with h' | h'
        · subst h'; exact hbr
        · exact h1 y h'

lemma pickLatest_foldl_ne_none (l : List SensorRow) :
    ∀ b : SensorRow, l.foldl pickLatest (some b) ≠ none := by
  induction l with
  | nil => intro b h; simp at h
  | cons x xs ih =>
      intro b
      rw [List.foldl_cons]
      by_cases hx : b.timestamp < x.timestamp
      · rw [show pickLatest (some b) x = some x by simp [pickLatest, hx]]; exact ih x
      · rw [show pickLatest (some b) x = some b by simp [pickLatest, hx]]; exact ih b

/-- C6. The latest-value query returns each sensor identifier at most
once, and the row returned for an identifier is, among all stored rows
with that identifier (in insertion order), the first one achieving the
maximal creation timestamp: all earlier rows are strictly older and all
later rows are no newer. -/
theorem claim_C6 :
    ∀ rows : List SensorRow,
      ((getLatestSensorData rows).map (·.nodeId)).Nodup ∧
      ∀ r ∈ getLatestSensorData rows, ∃ l₁ l₂,
        (rows.filter fun x => x.nodeId == r.nodeId) = l₁ ++ r :: l₂ ∧
        (∀ x ∈ l₁, x.timestamp < r.timestamp) ∧
        ∀ x ∈ l₂, x.timestamp ≤ r.timestamp := by
  intro rows
  have hwf : StoreWF (rows.foldl latestStep []) := storeWF_foldl rows [] storeWF_nil
  constructor
  · unfold getLatestSensorData
    rw [List.map_map]
    have : ((rows.foldl latestStep []).map fun p => p.2.nodeId)
        = (rows.foldl latestStep []).map Prod.fst :=
      List.map_congr_left fun p hp => hwf.2 p hp
    rw [show ((·.nodeId) ∘ Prod.snd : String × SensorRow → String)
          = fun p => p.2.nodeId from rfl, this]
    exact hwf.1
  · intro r hr
    unfold getLatestSensorData at hr
    rw [List.mem_map] at hr
    obtain ⟨p, hp, hp2⟩ := hr
    have hkey : p.1 = r.nodeId := by rw [← hp2]; exact (hwf.2 p hp).symm
    have hget : mapGet (rows.foldl latestStep []) r.nodeId = some r := by
      rw [← hkey, ← hp2]; exact mapGet_of_mem _ p hwf.1 hp
    rw [mapGet_foldl_latestStep rows [] r.nodeId] at hget
    exact pickLatest_foldl_none _ r hget

/-- Witness for C6, on a two-row store with a timestamp tie: the first
row inserted wins and is the unique entry for its identifier. -/
theorem claim_C6_witness :
    ∃ l₁ l₂,
      ([⟨1, "A", "temperature", 5, "u", Status.normal, none, none, 7⟩,
        ⟨2, "A", "temperature", 6, "u", Status.normal, none, none, 7⟩].filter
          fun x => x.nodeId == (⟨1, "A", "temperature", 5, "u", Status.normal, none, none, 7⟩ : SensorRow).nodeId)
        = l₁ ++ (⟨1, "A", "temperature", 5, "u", Status.normal, none, none, 7⟩ : SensorRow) :: l₂ ∧
      (∀ x ∈ l₁, x.timestamp < 7) ∧ ∀ x ∈ l₂, x.timestamp ≤ 7 :=
  (claim_C6 [⟨1, "A", "temperature", 5, "u", Status.normal, none, none, 7⟩,
             ⟨2, "A", "temperature", 6, "u", Status.normal, none, none, 7⟩]).2
    ⟨1, "A", "temperature", 5, "u", Status.normal, none, none, 7⟩ (by decide)

/-- C7. A payload written through `createSensorData` whose assigned
timestamp is strictly newer than every stored row for its identifier is
returned by `getLatestSensorData` with every payload field intact
(identifier, kind, value, unit, status, threshold, maxValue), and it is
the unique result row for that identifier. -/
theorem claim_C7 :
    ∀ (rows : List SensorRow) (d : InsertSensorData) (id ts : ℕ),
      (∀ r ∈ rows, r.nodeId = d.nodeId → r.timestamp < ts) →
      ∃ r ∈ getLatestSensorData (createSensorData rows d id ts),
        r.nodeId = d.nodeId ∧ r.sensorType = d.sensorType ∧ r.value = d.value ∧
        r.unit = d.unit ∧ r.status = d.status ∧ r.threshold = d.threshold ∧
        r.maxValue = d.maxValue ∧
        ∀ r2 ∈ getLatestSensorData (createSensorData rows d id ts),
          r2.nodeId = d.nodeId → r2 = r := by
  intro rows d id ts hnew
  set newRow : SensorRow :=
    { id := id, nodeId := d.nodeId, sensorType := d.sensorType, value := d.value,
      unit := d.unit, status := d.status, threshold := d.threshold,
      maxValue := d.maxValue, timestamp := ts } with hnewRow
  have hrows : createSensorData rows d id ts = rows ++ [newRow] := rfl
  have hwf : StoreWF ((rows ++ [newRow]).foldl latestStep []) :=
    storeWF_foldl _ [] storeWF_nil
  have hget : mapGet ((rows ++ [newRow]).foldl latestStep []) d.nodeId = some newRow := by
    rw [mapGet_foldl_latestStep]
    have hfilter : ((rows ++ [newRow]).filter fun r => r.nodeId == d.nodeId)
        = (rows.filter fun r => r.nodeId == d.nodeId) ++ [newRow] := by
      rw [List.filter_append]
      simp [newRow]
    rw [hfilter, List.foldl_append]
    rcases hfold : (rows.filter fun r => r.nodeId == d.nodeId).foldl pickLatest
        (mapGet ([] : List (String × SensorRow)) d.nodeId) with _ | b
    · rw [hfold]; rfl
    · obtain ⟨l₁, l₂, hdecomp, -, -⟩ := pickLatest_foldl_none _ b hfold
      have hbmem : b ∈ rows.filter fun r => r.nodeId == d.nodeId := by
        rw [hdecomp]; exact List.mem_append.mpr (Or.inr (List.mem_cons_self _ _))
      rw [List.mem_filter] at hbmem
      have hlt : b.timestamp < ts := hnew b hbmem.1 (by simpa using hbmem.2)
      rw [hfold]
      simp only [List.foldl_cons, List.foldl_nil, pickLatest]
      rw [if_pos hlt]
  refine ⟨newRow, ?_, rfl, rfl, rfl, rfl, rfl, rfl, rfl, ?_⟩
  · unfold getLatestSensorData
    rw [hrows]
    have := mem_of_mapGet _ _ _ hget
    exact List.mem_map.mpr ⟨(d.nodeId, newRow), this, rfl⟩
  · intro r2 hr2 hr2id
    unfold getLatestSensorData at hr2
    rw [hrows] at hr2
    rw [List.mem_map] at hr2
    obtain ⟨p, hp, hp2⟩ := hr2
    have hkey : p.1 = d.nodeId := by
      rw [← hr2id, ← hp2]; exact (hwf.2 p hp).symm
    have := mapGet_of_mem _ p hwf.1 hp
    rw [hkey, hget] at this
    rw [← hp2]
    exact (Option.some_inj.mp this).symm

/-- Witness for C7: writing a strictly newer reading for identifier "A"
over a one-row store returns it intact and uniquely. -/
theorem claim_C7_witness :
    ∃ r ∈ getLatestSensorData (createSensorData
        [⟨1, "A", "temperature", 5, "u", Status.normal, none, none, 3⟩]
        ⟨"A", "temperature", 9, "u", Status.warning, some 8, none⟩ 2 4),
      r.nodeId = "A" ∧ r.sensorType = "temperature" ∧ r.value = 9 ∧ r.unit = "u" ∧
      r.status = Status.warning ∧ r.threshold = some 8 ∧ r.maxValue = none ∧
      ∀ r2 ∈ getLatestSensorData (createSensorData
          [⟨1, "A", "temperature", 5, "u", Status.normal, none, none, 3⟩]
          ⟨"A", "temperature", 9, "u", Status.warning, some 8, none⟩ 2 4),
        r2.nodeId = "A" → r2 = r :=
  claim_C7 [⟨1, "A", "temperature", 5, "u", Status.normal, none, none, 3⟩]
    ⟨"A", "temperature", 9, "u", Status.warning, some 8, none⟩ 2 4 (by decide)

/-! ## Alerts (shared/schema.ts lines 17-24, storage.ts lines 117-142)

The `alerts` table has NOT NULL columns `sensor_node_id` and
`alert_type` without defaults. `storage.createAlert` reads
`alert.sensorNodeId` and `alert.alertType` from its argument object; a
call site that does not supply those keys passes `undefined`, and the
insert is rejected by the database (NOT NULL violation). The payload
type below therefore carries them as `Option`s, and the insert returns
an error when either is absent. -/

/-- A persisted `alerts` row. -/
structure AlertRow where
  id : ℕ
  sensorNodeId : String
  alertType : String
  message : String
  isActive : Bool
  timestamp : ℕ
deriving DecidableEq, Repr

/-- The raw JS object handed to `storage.createAlert`: the two NOT NULL
key columns may be absent (`undefined`) when the caller uses different
key names. -/
structure InsertAlertPayload where
  sensorNodeId : Option String
  alertType : Option String
  message : String
  isActive : Bool
deriving DecidableEq, Repr

/-- Function `createAlert` (storage.ts, lines 117-125): insert the row, or fail
with the database NOT NULL violation when a required column is absent
(schema.ts lines 17-24: `sensor_node_id` and `alert_type` are notNull
with no default). -/
def createAlert (rows : List AlertRow) (p : InsertAlertPayload) (id ts : ℕ) :
    Except String (List AlertRow) :=
  match p.sensorNodeId, p.alertType with
  | some nid, some aty =>
      .ok (rows ++ [{ id := id, sensorNodeId := nid, alertType := aty,
                      message := p.message, isActive := p.isActive, timestamp := ts }])
  | _, _ => .error "null value in NOT NULL column"

/-- Function `getActiveAlerts` (storage.ts, lines 131-136), keeping the rows in
store order (the descending-timestamp ordering does not matter to any
membership test made on the result). -/
def getActiveAlerts (rows : List AlertRow) : List AlertRow :=
  rows.filter fun a => a.isActive

/-- The status string stored into `alertType` by `generateSensorData`. -/
def statusText : Status → String
  | .normal => "normal"
  | .warning => "warning"
  | .critical => "critical"

/-- The check phase of the alert branch of `generateSensorData`
(ai-engine.ts routes part, lines 628-631): `await storage.getActiveAlerts()`
followed by the synchronous
`existingAlerts.some(alert => alert.sensorNodeId === config.nodeId && alert.isActive)`.
This phase and the insert phase below are separated by an `await` in the
code; they are kept as distinct steps so that interleavings between them
can be expressed. -/
def hasActiveAlertCheck (rows : List AlertRow) (nodeId : String) : Bool :=
  (getActiveAlerts rows).any fun a => a.sensorNodeId == nodeId && a.isActive

/-- The insert phase of the alert branch (lines 633-640): the
`storage.createAlert` call made when the check phase returned false.
`msg` is the interpolated message string; the surrounding try/catch
(lines 649-651) turns any insert failure into a log-and-continue, hence
the error arm keeps the store unchanged (it is unreachable here since
both required columns are supplied). -/
def breachInsert (rows : List AlertRow) (nodeId : String) (status : Status)
    (msg : String) (id ts : ℕ) : List AlertRow :=
  match createAlert rows ⟨some nodeId, some (statusText status), msg, true⟩ id ts with
  | .ok rows2 => rows2
  | .error _ => rows

/-- One whole breach evaluation of `generateSensorData` (lines 626-641)
*executed serially*: the check phase immediately followed by the
conditional insert phase, with no other alert mutation between them.
This is the composition the code performs only when nothing interleaves
at the `await` separating the two phases; `raceStep` below models the
phases as separate events and shows the composition is not atomic in
the program. -/
def generateAlertStep (rows : List AlertRow) (nodeId : String) (status : Status)
    (msg : String) (id ts : ℕ) : List AlertRow :=
  if status = Status.warning ∨ status = Status.critical then
    if hasActiveAlertCheck rows nodeId then rows
    else breachInsert rows nodeId status msg id ts
  else rows

/-- Number of active alert rows carrying a given sensor identifier. -/
def activeAlertCount (rows : List AlertRow) (nodeId : String) : ℕ :=
  (rows.filter fun a => a.sensorNodeId == nodeId && a.isActive).length

/-! ### Two concurrent breach evaluations for one sensor

`generateSensorData` runs on a 2-second `setInterval` and each per-config
closure awaits storage three times; when a storage call outlasts the
tick, two evaluations for the *same* config (consecutive ticks) are in
flight at once. Each evaluation is its check phase followed, after a
suspension, by its conditional insert phase. The state below carries the
shared alert store and each evaluation's fetched check result. -/

/-- Shared store plus the check result each of the two evaluations has
fetched so far (`none` = its check phase has not run yet). -/
structure RaceState where
  alerts : List AlertRow
  check1 : Option Bool
  check2 : Option Bool
deriving DecidableEq, Repr

/-- The four atomic events: each evaluation's check phase and its
conditional insert phase. -/
inductive RaceEvent where
  | check1
  | insert1
  | check2
  | insert2
deriving DecidableEq, Repr

/-- One event of the two-evaluation interleaving for a single sensor
`nodeId` breaching with `status`: a check phase records
`hasActiveAlert`, an insert phase runs `if (!hasActiveAlert) createAlert`
against the store *as it is then*, exactly as the code's await-separated
sequence does. An insert before its own check is a no-op (the code
cannot reach it). -/
def raceStep (nodeId : String) (status : Status) (msg : String) (id1 id2 ts1 ts2 : ℕ)
    (s : RaceState) : RaceEvent → RaceState
  | .check1 => { s with check1 := some (hasActiveAlertCheck s.alerts nodeId) }
  | .check2 => { s with check2 := some (hasActiveAlertCheck s.alerts nodeId) }
  | .insert1 =>
      if s.check1 = some false
      then { s with alerts := breachInsert s.alerts nodeId status msg id1 ts1 }
      else s
  | .insert2 =>
      if s.check2 = some false
      then { s with alerts := breachInsert s.alerts nodeId status msg id2 ts2 }
      else s

/-- Run a schedule of the two evaluations from an empty alert store. -/
def raceRun (nodeId : String) (status : Status) (msg : String) (id1 id2 ts1 ts2 : ℕ)
    (events : List RaceEvent) : RaceState :=
  events.foldl (raceStep nodeId status msg id1 id2 ts1 ts2) ⟨[], none, none⟩

/-! ## Scenario phase alerts (part_000 / reactor-scenarios.ts) -/

/-- One `AlertCondition` of a scenario phase (reactor-scenarios.ts,
lines 252-257). -/
structure AlertCondition where
  severity : String
  message : String
  nodeId : Option String
  triggerCondition : String
deriving DecidableEq, Repr

/-- The alert conditions of phase 1 ("Initial Break Event") of the
steam-line-break scenario (reactor-scenarios.ts, lines 399-402); both
conditions omit `nodeId`. -/
def steamLineBreakPhase1Alerts : List AlertCondition :=
  [⟨"critical", "STEAM LINE BREAK DETECTED - Main Steam Isolation Signal", none,
    "pressure_drop"⟩,
   ⟨"critical", "Reactor Trip Signal Generated", none, "safety_system"⟩]

/-- The JS object built for `storage.createAlert` by
`executeCurrentPhase` (reactor-scenarios.ts, lines 601-609). The call
passes the keys `nodeId` and `severity`, but `createAlert` reads
`sensorNodeId` and `alertType`, which are therefore absent
(`undefined`) in every scenario alert insert. -/
def scenarioAlertPayload (c : AlertCondition) : InsertAlertPayload :=
  { sensorNodeId := none, alertType := none, message := c.message, isActive := true }

/-- The alert loop of `executeCurrentPhase` (reactor-scenarios.ts,
lines 600-609): insert each condition unconditionally (no dedup check);
the first failed `await` aborts the loop, returning the store reached so
far together with the error. -/
def executePhaseAlerts (rows : List AlertRow) (conds : List AlertCondition) (id ts : ℕ) :
    List AlertRow × Option String :=
  match conds with
  | [] => (rows, none)
  | c :: rest =>
      match createAlert rows (scenarioAlertPayload c) id ts with
      | .ok rows2 => executePhaseAlerts rows2 rest (id + 1) ts
      | .error e => (rows, some e)

/-- Modelled from the spec: the Alert Deduplicator contract
`maybeRaise(sensorId, severity, message)` of spec §4.3 — look up the
active alerts, suppress if one exists for the sensor id, otherwise
insert a new active alert — which claim C2 asserts every alert-inserting
operation (including each scenario phase's alert conditions) goes
through. The code's scenario path (`executePhaseAlerts`) performs no
such check; this definition exists to exhibit the divergence. -/
def maybeRaiseSpec (rows : List AlertRow) (sensorId severity msg : String)
    (id ts : ℕ) : List AlertRow :=
  if (getActiveAlerts rows).any fun a => a.sensorNodeId == sensorId && a.isActive then rows
  else rows ++ [{ id := id, sensorNodeId := sensorId, alertType := severity,
                  message := msg, isActive := true, timestamp := ts }]

/-- Modelled from the spec: a scenario phase's alert conditions routed
through the §4.3 deduplicator, as claim C2 describes. -/
def executePhaseAlertsSpec (rows : List AlertRow) (conds : List AlertCondition)
    (id ts : ℕ) : List AlertRow :=
  match conds with
  | [] => rows
  | c :: rest =>
      executePhaseAlertsSpec
        (maybeRaiseSpec rows (c.nodeId.getD "SCENARIO-EVENT") c.severity c.message id ts)
        rest (id + 1) ts

/-- Counterexample for C2, refuting both halves of the claim. First,
the "regardless of scheduling interleaving" invariant: two breach
evaluations for CORE-TEMP-01 whose check phases both run before either
insert phase (two consecutive generator ticks straddling a slow storage
await) each see no active alert and each insert, leaving *two* active
Alert rows for that sensor. Second, the mechanism: each scenario phase's
alert conditions are claimed to be check-then-suppressed inserts; on an
empty store the claimed behaviour would persist exactly one active
"SCENARIO-EVENT" alert for the steam-line-break initial phase (its
second condition suppressed), while the code attempts unchecked inserts
whose payloads lack the NOT NULL `sensorNodeId`/`alertType` columns, so
it errors and persists nothing. -/
theorem claim_C2_counterexample :
    activeAlertCount (raceRun "CORE-TEMP-01" Status.warning
        "temperature sensor CORE-TEMP-01 exceeded threshold" 1 2 0 2
        [.check1, .check2, .insert1, .insert2]).alerts "CORE-TEMP-01" = 2 ∧
    ¬ activeAlertCount (raceRun "CORE-TEMP-01" Status.warning
        "temperature sensor CORE-TEMP-01 exceeded threshold" 1 2 0 2
        [.check1, .check2, .insert1, .insert2]).alerts "CORE-TEMP-01" ≤ 1 ∧
    (executePhaseAlerts [] steamLineBreakPhase1Alerts 1 0).1 = [] ∧
    (executePhaseAlerts [] steamLineBreakPhase1Alerts 1 0).2.isSome = true ∧
    activeAlertCount (executePhaseAlertsSpec [] steamLineBreakPhase1Alerts 1 0)
      "SCENARIO-EVENT" = 1 ∧
    (executePhaseAlerts [] steamLineBreakPhase1Alerts 1 0).1 ≠
      executePhaseAlertsSpec [] steamLineBreakPhase1Alerts 1 0 := by
  decide

/-- C2 (amended). Only the sample-generation path checks the active
alerts before inserting, and a breach evaluation whose check and insert
phases run with nothing interleaved between them preserves "at most one
active alert per sensor identifier" — concretely, a second evaluation
run serially after the first is suppressed. But the check and the insert
are separated by an `await`, and they are not atomic: two evaluations
for the same sensor whose checks both precede either insert both pass
the check and both insert (see the counterexample), so the invariant
does not hold regardless of scheduling interleaving. The scenario-phase
path performs no check at all — it attempts unconditional inserts,
every one of which fails (the call site passes `nodeId`/`severity` keys
where the storage layer reads the NOT NULL `sensorNodeId`/`alertType`
columns), so it never changes the alert store and reports an error. -/
theorem claim_C2 :
    (∀ (rows : List AlertRow) (nodeId : String) (status : Status) (msg : String)
      (id ts : ℕ), (∀ k, activeAlertCount rows k ≤ 1) →
      ∀ k, activeAlertCount (generateAlertStep rows nodeId status msg id ts) k ≤ 1) ∧
    activeAlertCount (raceRun "CORE-TEMP-01" Status.warning
        "temperature sensor CORE-TEMP-01 exceeded threshold" 1 2 0 2
        [.check1, .insert1, .check2, .insert2]).alerts "CORE-TEMP-01" = 1 ∧
    (∀ (rows : List AlertRow) (conds : List AlertCondition) (id ts : ℕ),
      (executePhaseAlerts rows conds id ts).1 = rows ∧
      (conds ≠ [] → (executePhaseAlerts rows conds id ts).2.isSome = true)) := by
  refine ⟨?_, by decide, ?_⟩
  · intro rows nodeId status msg id ts hinv k
    unfold generateAlertStep
    by_cases hst : status = Status.warning ∨ status = Status.critical
    case neg => rw [if_neg hst]; exact hinv k
    case pos =>
      rw [if_pos hst]
      unfold hasActiveAlertCheck
      by_cases hact :
          ((getActiveAlerts rows).any fun a => a.sensorNodeId == nodeId && a.isActive) = true
      · rw [if_pos hact]; exact hinv k
      · rw [if_neg hact]
        show activeAlertCount
          (rows ++ [{ id := id, sensorNodeId := nodeId, alertType := statusText status,
                      message := msg, isActive := true, timestamp := ts }]) k ≤ 1
        unfold activeAlertCount
        rw [List.filter_append, List.length_append]
        by_cases hk : nodeId = k
        · subst hk
          have hzero : (rows.filter fun a => a.sensorNodeId == nodeId && a.isActive).length
              = 0 := by
            rw [List.length_eq_zero, List.filter_eq_nil_iff]
            intro x hx hcond
            apply hact
            rw [List.any_eq_true]
            have hcond2 : (x.sensorNodeId == nodeId) = true ∧ x.isActive = true := by
              simpa using hcond
            exact ⟨x, List.mem_filter.mpr ⟨hx, hcond2.2⟩, hcond⟩
          rw [hzero]
          simp
        · have hbeq : (nodeId == k) = false := by simp [hk]
          have hnil : (List.filter (fun a : AlertRow => a.sensorNodeId == k && a.isActive)
              ([{ id := id, sensorNodeId := nodeId, alertType := statusText status,
                  message := msg, isActive := true, timestamp := ts }] : List AlertRow)).length
              = 0 := by
            simp [hbeq]
          rw [hnil]
          simpa [activeAlertCount] using hinv k
  · intro rows conds id ts
    cases conds with
    | nil => exact ⟨rfl, fun h => absurd rfl h⟩
    | cons c rest =>
        constructor
        · simp [executePhaseAlerts, scenarioAlertPayload, createAlert]
        · intro _
          simp [executePhaseAlerts, scenarioAlertPayload, createAlert]

/-- Witness for C2: the generator path at a concrete store that already
holds one active alert for "CORE-TEMP-01", and the scenario path on the
steam-line-break conditions. -/
theorem claim_C2_witness :
    (∀ k, activeAlertCount (generateAlertStep
        [⟨1, "CORE-TEMP-01", "warning", "m", true, 0⟩]
        "CORE-TEMP-01" Status.warning "m2" 2 1) k ≤ 1) ∧
    (executePhaseAlerts [⟨1, "CORE-TEMP-01", "warning", "m", true, 0⟩]
        steamLineBreakPhase1Alerts 2 1).2.isSome = true :=
  ⟨(claim_C2.1 [⟨1, "CORE-TEMP-01", "warning", "m", true, 0⟩] "CORE-TEMP-01"
      Status.warning "m2" 2 1
      (by intro k; exact le_trans (List.length_filter_le _ _) (Nat.le_refl 1))),
   (claim_C2.2.2 [⟨1, "CORE-TEMP-01", "warning", "m", true, 0⟩]
      steamLineBreakPhase1Alerts 2 1).2 (by decide)⟩

/-! ## Alert deactivation (storage.ts lines 138-142; routes lines 812-820) -/

/-- Outcome of the DELETE `/api/alerts/:id` route: the JSON success
body, an HTTP 404, or the HTTP 500 of the catch arm. -/
inductive ApiOutcome where
  | ok
  | notFound
  | serverError
deriving DecidableEq, Repr

/-- Function `deactivateAlert` (storage.ts, lines 138-142): an UPDATE setting
`isActive := false` on the rows whose id matches; matching nothing is a
silent no-op. -/
def deactivateAlert (rows : List AlertRow) (id : ℕ) : List AlertRow :=
  rows.map fun a => if a.id = id then { a with isActive := false } else a

/-- The DELETE `/api/alerts/:id` route (ai-engine.ts routes part, lines
812-820): run the update and answer `{ success: true }` whether or not
any row matched. -/
def deleteAlertRoute (rows : List AlertRow) (id : ℕ) : List AlertRow × ApiOutcome :=
  (deactivateAlert rows id, ApiOutcome.ok)

/-- Counterexample for C9: deactivating the absent id 5 on an empty
alert store answers the generic success outcome, not a typed
"not found". -/
theorem claim_C9_counterexample :
    deleteAlertRoute [] 5 = ([], ApiOutcome.ok) ∧
    (deleteAlertRoute [] 5).2 ≠ ApiOutcome.notFound := by
  decide

/-- C9 (amended). Deactivating a non-existent alert id never throws and
leaves the stored alerts unchanged, but the caller receives the generic
success response — not a typed "not found" result (unlike the
start-scenario route, which does answer 404 for an unknown id). -/
theorem claim_C9 :
    ∀ (rows : List AlertRow) (id : ℕ), (∀ a ∈ rows, a.id ≠ id) →
      deleteAlertRoute rows id = (rows, ApiOutcome.ok) := by
  intro rows id hnone
  unfold deleteAlertRoute deactivateAlert
  congr 1
  induction rows with
  | nil => rfl
  | cons a rest ih =>
      rw [List.map_cons, if_neg (hnone a (List.mem_cons_self a rest)),
        ih fun b hb => hnone b (List.mem_cons_of_mem a hb)]

/-- Witness for C9: the empty store and id 5. -/
theorem claim_C9_witness : deleteAlertRoute [] 5 = ([], ApiOutcome.ok) :=
  claim_C9 [] 5 (by intro a ha; simp at ha)

/-! ## Derived-insight scheduler (ai-engine.ts routes part, lines 656-767) -/

/-- A canned analysis template of `performAiAnalysis`
(`nuclearAnalysisPatterns`, lines 657-737). -/
structure AnalysisTemplate where
  title : String
  description : String
  priority : String
  confidence : ℤ
  category : String
deriving DecidableEq, Repr

/-- The ten `nuclearAnalysisPatterns` entries (titles, priorities,
confidences and categories as in the source; descriptions abbreviated to
their sources' first sentences would not be faithful, so they are kept
in full). -/
def nuclearAnalysisPatterns : List AnalysisTemplate := [
  ⟨"Core Temperature Trend Analysis",
   "Primary loop temperature approaching technical specification limits. Recommend reducing reactor power by 5% and monitoring neutron flux distribution.",
   "high", 91, "anomaly"⟩,
  ⟨"Thermal Hydraulic Optimization",
   "Secondary coolant flow pattern shows potential for 2.1% efficiency improvement. Consider adjusting steam generator feedwater flow rate.",
   "medium", 88, "optimization"⟩,
  ⟨"Neutron Flux Distribution Alert",
   "In-core neutron detectors show asymmetric flux pattern. Control rod bank D position may require adjustment to maintain axial power distribution.",
   "high", 93, "anomaly"⟩,
  ⟨"Reactor Physics Optimization",
   "Current control rod configuration allows for 1.8% burnup optimization while maintaining safety margins within technical specifications.",
   "medium", 85, "optimization"⟩,
  ⟨"Primary Pressure System Performance",
   "Pressurizer level and pressure trending nominally. All safety injection system pumps available. RCS integrity maintained.",
   "info", 97, "performance"⟩,
  ⟨"Steam Generator Performance",
   "Secondary side pressure differential indicates potential for steam generator tube inspection during next scheduled outage.",
   "medium", 82, "optimization"⟩,
  ⟨"Radiation Protection Analysis",
   "Containment radiation monitors within normal operating envelope. No indication of fuel cladding degradation or primary-to-secondary leakage.",
   "info", 94, "performance"⟩,
  ⟨"Environmental Monitoring Alert",
   "Slight increase in containment particulate activity. Recommend enhanced radiological surveillance and primary coolant sampling.",
   "medium", 79, "anomaly"⟩,
  ⟨"Control Rod Drive System Status",
   "All control rod drive mechanisms responding normally. Rod drop times within technical specification requirements.",
   "info", 98, "performance"⟩,
  ⟨"Reactor Trip System Readiness",
   "All reactor protection system channels operational. Diverse actuation system armed and ready. Safety systems demonstrate high reliability.",
   "info", 96, "performance"⟩]

/-- The draw `Math.floor(Math.random() * 8) - 4` (line 746): `r` is the floored
draw, an integer in `[0, 8)`, so the variation ranges over `[-4, 3]`. -/
def confidenceVariation (r : ℕ) : ℤ := (r : ℤ) - 4

/-- The clamp `Math.max(75, Math.min(99, analysis.confidence + confidenceVariation))`
(line 747). -/
def finalConfidence (base : ℤ) (r : ℕ) : ℤ :=
  max 75 (min 99 (base + confidenceVariation r))

/-- C8. Every recommendation produced by a `performAiAnalysis` tick
carries the template confidence jittered by a value in `[-4, 3]` (within
the ±4 band) and clamped to `[75, 99]`, hence in particular within
0–100. -/
theorem claim_C8 :
    ∀ p ∈ nuclearAnalysisPatterns, ∀ r : ℕ, r < 8 →
      (-4 ≤ confidenceVariation r ∧ confidenceVariation r ≤ 3) ∧
      75 ≤ finalConfidence p.confidence r ∧ finalConfidence p.confidence r ≤ 99 ∧
      0 ≤ finalConfidence p.confidence r ∧ finalConfidence p.confidence r ≤ 100 := by
  intro p _ r hr
  unfold finalConfidence confidenceVariation
  omega

/-- Witness for C8: the first template and draw 0. -/
theorem claim_C8_witness :
    (-4 ≤ confidenceVariation 0 ∧ confidenceVariation 0 ≤ 3) ∧
    75 ≤ finalConfidence 91 0 ∧ finalConfidence 91 0 ≤ 99 ∧
    0 ≤ finalConfidence 91 0 ∧ finalConfidence 91 0 ≤ 100 :=
  claim_C8 (nuclearAnalysisPatterns.get ⟨0, by decide⟩)
    (nuclearAnalysisPatterns.get_mem 0 (by decide)) 0 (by decide)

/-! ## Neutron-flux rounding (ai-engine.ts routes part, lines 610-613)

`generateSensorData` computes the status first (lines 604-608) and only
then, for `neutron_flux` sensors, replaces the value by
`parseFloat((value / 1e14).toFixed(1)) * 1e14` — so the persisted value
is rounded while the persisted status reflects the unrounded value. -/

/-- For both neutron-flux configs, a `Math.random()` draw in `[0, 1)`
keeps the generated value at or below `3e14`, strictly under the
`3.2e14` threshold, and the rounded persisted value below it as well:
both statuses are "normal". `b` is the baseline, `s` the variance. -/
lemma neutron_no_divergence (b s : ℚ) (hs : 0 < s) (hbound : b + s / 2 ≤ 3e14)
    (rand : ℚ) (h0 : 0 ≤ rand) (h1 : rand < 1) :
    determineStatus (.num (b + (rand - 1/2) * s)) (some 3.2e14) (some 3.8e14)
        = Status.normal ∧
    determineStatus (.num (toFixed1 ((b + (rand - 1/2) * s) / 1e14) * 1e14))
        (some 3.2e14) (some 3.8e14) = Status.normal := by
  have hv : b + (rand - 1/2) * s ≤ 3e14 := by nlinarith
  constructor
  · rw [(determineStatus_spec _ 3.2e14 3.8e14 (by norm_num)).2.2]
    intro hgt
    rw [gt_iff_lt] at hgt
    linarith
  · have hq : (b + (rand - 1/2) * s) / 1e14 * 10 ≤ 30 := by
      rw [div_mul_eq_mul_div, div_le_iff₀ (by norm_num : (0:ℚ) < 1e14)]
      linarith
    have hr : (round ((b + (rand - 1/2) * s) / 1e14 * 10) : ℤ) ≤ 30 := by
      rw [round_eq]
      calc (⌊(b + (rand - 1/2) * s) / 1e14 * 10 + 1/2⌋ : ℤ)
          ≤ ⌊(30 : ℚ) + 1/2⌋ := Int.floor_le_floor (by linarith)
        _ = 30 := by norm_num [Int.floor_eq_iff]
    have hrq : ((round ((b + (rand - 1/2) * s) / 1e14 * 10) : ℤ) : ℚ) ≤ 30 := by
      exact_mod_cast hr
    have hpv : toFixed1 ((b + (rand - 1/2) * s) / 1e14) * 1e14 ≤ 3e14 := by
      unfold toFixed1
      rw [div_mul_eq_mul_div, div_le_iff₀ (by norm_num : (0:ℚ) < 10)]
      calc ((round ((b + (rand - 1/2) * s) / 1e14 * 10) : ℤ) : ℚ) * 1e14
          ≤ 30 * 1e14 := by nlinarith
        _ = 3e14 * 10 := by norm_num
    rw [(determineStatus_spec _ 3.2e14 3.8e14 (by norm_num)).2.2]
    intro hgt
    rw [gt_iff_lt] at hgt
    linarith

/-- Counterexample for C10's existence clause over actually generated
values: with the configured baselines and variances (2.8e14 ± 0.075e14
and 2.9e14 ± 0.09e14) every `Math.random()` draw in `[0, 1)` keeps a
neutron-flux value — rounded or not — strictly below the 3.2e14
threshold, so the persisted status and the status recomputed from the
persisted (rounded) value never differ on a reachable reading. -/
theorem claim_C10_counterexample :
    ¬ ∃ c ∈ SENSOR_CONFIGS, c.sensorType = "neutron_flux" ∧ ∃ rand : ℚ,
      0 ≤ rand ∧ rand < 1 ∧
      (generateSensorReading c rand).status ≠
        determineStatus (.num (generateSensorReading c rand).value)
          c.threshold c.maxValue := by
  rintro ⟨c, hc, htyp, rand, h0, h1, hne⟩
  apply hne
  clear hne
  fin_cases hc <;> first
    | exact absurd htyp (by decide)
    | · have h := neutron_no_divergence 2.8e14 0.15e14 (by norm_num) (by norm_num) rand h0 h1
        have hval : (generateSensorReading
            ⟨"NEUT-FLUX-01", "neutron_flux", "n/cm²s", 2.8e14, 0.15e14, some 3.2e14,
             some 3.8e14, "AWS"⟩ rand).value
            = toFixed1 ((2.8e14 + (rand - 1/2) * 0.15e14) / 1e14) * 1e14 := by
          simp [generateSensorReading, generatedValue]
        show determineStatus (.num (2.8e14 + (rand - 1/2) * 0.15e14))
            (some 3.2e14) (some 3.8e14)
          = determineStatus (.num (generateSensorReading
              ⟨"NEUT-FLUX-01", "neutron_flux", "n/cm²s", 2.8e14, 0.15e14, some 3.2e14,
               some 3.8e14, "AWS"⟩ rand).value) (some 3.2e14) (some 3.8e14)
        rw [hval, h.1, h.2]
    | · have h := neutron_no_divergence 2.9e14 0.18e14 (by norm_num) (by norm_num) rand h0 h1
        have hval : (generateSensorReading
            ⟨"NEUT-FLUX-02", "neutron_flux", "n/cm²s", 2.9e14, 0.18e14, some 3.2e14,
             some 3.8e14, "Ubuntu"⟩ rand).value
            = toFixed1 ((2.9e14 + (rand - 1/2) * 0.18e14) / 1e14) * 1e14 := by
          simp [generateSensorReading, generatedValue]
        show determineStatus (.num (2.9e14 + (rand - 1/2) * 0.18e14))
            (some 3.2e14) (some 3.8e14)
          = determineStatus (.num (generateSensorReading
              ⟨"NEUT-FLUX-02", "neutron_flux", "n/cm²s", 2.9e14, 0.18e14, some 3.2e14,
               some 3.8e14, "Ubuntu"⟩ rand).value) (some 3.2e14) (some 3.8e14)
        rw [hval, h.1, h.2]

/-- C10 (amended). For every neutron-flux sensor the persisted value is
the generated value rounded to one decimal in units of 1e14 while the
persisted status is evaluated on the unrounded value; the two rules can
disagree — e.g. an unrounded 3.24e14 is persisted as status "warning"
with value 3.2e14, which re-evaluates to "normal" — but the disagreeing
values need a perturbation beyond the configured variance ranges, so no
reading the generator actually produces exhibits the divergence (see the
counterexample). -/
theorem claim_C10 :
    (∀ c ∈ SENSOR_CONFIGS, c.sensorType = "neutron_flux" → ∀ rand : ℚ,
      (generateSensorReading c rand).value
        = toFixed1 (generatedValue c rand / 1e14) * 1e14 ∧
      (generateSensorReading c rand).status
        = determineStatus (.num (generatedValue c rand)) c.threshold c.maxValue) ∧
    ∃ c ∈ SENSOR_CONFIGS, ∃ rand : ℚ,
      (generateSensorReading c rand).status ≠
        determineStatus (.num (generateSensorReading c rand).value)
          c.threshold c.maxValue := by
  constructor
  · intro c hc htyp rand
    exact ⟨by simp [generateSensorReading, htyp], rfl⟩
  · refine ⟨⟨"NEUT-FLUX-01", "neutron_flux", "n/cm²s", 2.8e14, 0.15e14, some 3.2e14,
      some 3.8e14, "AWS"⟩, by simp [SENSOR_CONFIGS], 103/30, ?_⟩
    have hv : generatedValue ⟨"NEUT-FLUX-01", "neutron_flux", "n/cm²s", 2.8e14, 0.15e14,
        some 3.2e14, some 3.8e14, "AWS"⟩ (103/30) = 3.24e14 := by
      norm_num [generatedValue]
    have hst : (generateSensorReading ⟨"NEUT-FLUX-01", "neutron_flux", "n/cm²s", 2.8e14,
        0.15e14, some 3.2e14, some 3.8e14, "AWS"⟩ (103/30)).status = Status.warning := by
      rw [generateSensorReading_status, hv]
      rw [(determineStatus_spec 3.24e14 3.2e14 3.8e14 (by norm_num)).2.1]
      norm_num
    have hvv : (generateSensorReading ⟨"NEUT-FLUX-01", "neutron_flux", "n/cm²s", 2.8e14,
        0.15e14, some 3.2e14, some 3.8e14, "AWS"⟩ (103/30)).value = 3.2e14 := by
      have hvform : (generateSensorReading ⟨"NEUT-FLUX-01", "neutron_flux", "n/cm²s",
          2.8e14, 0.15e14, some 3.2e14, some 3.8e14, "AWS"⟩ (103/30)).value
          = toFixed1 (generatedValue ⟨"NEUT-FLUX-01", "neutron_flux", "n/cm²s", 2.8e14,
              0.15e14, some 3.2e14, some 3.8e14, "AWS"⟩ (103/30) / 1e14) * 1e14 := by
        simp [generateSensorReading, generatedValue]
      rw [hvform, hv]
      norm_num [toFixed1, round_eq]
    rw [hst, hvv]
    have hnorm : determineStatus (.num 3.2e14) (some 3.2e14) (some 3.8e14)
        = Status.normal := by
      rw [(determineStatus_spec 3.2e14 3.2e14 3.8e14 (by norm_num)).2.2]
      norm_num
    show Status.warning ≠ determineStatus (.num 3.2e14) (some 3.2e14) (some 3.8e14)
    rw [hnorm]
    decide

/-- Witness for C10: the first neutron-flux config at draw 0. -/
theorem claim_C10_witness :
    (generateSensorReading ⟨"NEUT-FLUX-01", "neutron_flux", "n/cm²s", 2.8e14, 0.15e14,
        some 3.2e14, some 3.8e14, "AWS"⟩ 0).value
      = toFixed1 (generatedValue ⟨"NEUT-FLUX-01", "neutron_flux", "n/cm²s", 2.8e14,
        0.15e14, some 3.2e14, some 3.8e14, "AWS"⟩ 0 / 1e14) * 1e14 :=
  (claim_C10.1 _ (by simp [SENSOR_CONFIGS]) rfl 0).1

/-! ## WebSocket fan-out (ai-engine.ts routes part, lines 543-595)

The connection handler runs `clients.add(ws)` synchronously and then
calls the async `sendLatestData(ws)`, which awaits five storage reads
before `ws.send`-ing the `initial_data` envelope. `broadcast` (lines
562-569) sends to every socket currently in `clients`. Because the
socket joins `clients` before the snapshot is sent, a broadcast fired by
a timer tick between those two points is delivered to the new observer
first. The model below makes those three steps the atomic events of an
interleaving: registering a connection, broadcasting one incremental
envelope to the current client set, and sending the snapshot to one
observer. -/

/-- Incremental envelope types pushed through `broadcast`. -/
inductive IncMsg where
  | sensorUpdate
  | alertUpdate
  | aiRecommendation
  | systemLog
deriving DecidableEq, Repr

/-- A server-to-observer message: the one-per-connection snapshot or an
incremental envelope. -/
inductive WsMsg where
  | initialData
  | inc (m : IncMsg)
deriving DecidableEq, Repr

/-- Per-observer delivered-message log, keyed by observer id in
connection order. -/
def deliverMsg : List (String × List WsMsg) → String → WsMsg → List (String × List WsMsg)
  | [], o, m => [(o, [m])]
  | p :: ib, o, m =>
      if p.1 = o then (p.1, p.2 ++ [m]) :: ib else p :: deliverMsg ib o m

/-- Messages delivered so far to observer `o`. -/
def recvd (ib : List (String × List WsMsg)) (o : String) : List WsMsg :=
  ((ib.find? fun p => p.1 == o).map (·.2)).getD []

/-- Fan-out state: the registered client set (`clients`) and what each
observer has received. -/
structure WsState where
  clients : List String
  inbox : List (String × List WsMsg)
deriving DecidableEq, Repr

/-- The atomic events of the handshake/broadcast interleaving:
`connect o` is the synchronous `clients.add(ws)`; `broadcastMsg m` is
one `broadcast` call delivering to every registered client;
`sendInitial o` is the `ws.send` at the end of `sendLatestData`. -/
inductive WsEvent where
  | connect (o : String)
  | broadcastMsg (m : IncMsg)
  | sendInitial (o : String)

/-- One event step (ai-engine.ts routes part: lines 548-559 for
connect/sendInitial, 562-569 for broadcast). -/
def wsStep (s : WsState) : WsEvent → WsState
  | .connect o => { s with clients := s.clients ++ [o] }
  | .broadcastMsg m =>
      { s with inbox := s.clients.foldl (fun ib o => deliverMsg ib o (.inc m)) s.inbox }
  | .sendInitial o => { s with inbox := deliverMsg s.inbox o .initialData }

/-- Run a schedule of events from the empty server state. -/
def wsRun (events : List WsEvent) : WsState := events.foldl wsStep ⟨[], []⟩

lemma recvd_deliverMsg_self (ib : List (String × List WsMsg)) (o : String) (m : WsMsg) :
    recvd (deliverMsg ib o m) o = recvd ib o ++ [m] := by
  induction ib with
  | nil => simp [recvd, deliverMsg, List.find?_cons]
  | cons p ib ih =>
      by_cases hp : p.1 = o
      · simp [recvd, deliverMsg, hp, List.find?_cons]
      · simpa [recvd, deliverMsg, hp, List.find?_cons] using ih

/-- Broadcasting to the single registered observer `o` appends the
incremental envelope to its log. -/
lemma wsStep_broadcast_single (o : String) (ib : List (String × List WsMsg)) (m : IncMsg) :
    recvd (wsStep ⟨[o], ib⟩ (.broadcastMsg m)).inbox o = recvd ib o ++ [.inc m] := by
  simp [wsStep, recvd_deliverMsg_self]

lemma wsStep_broadcast_clients (s : WsState) (m : IncMsg) :
    (wsStep s (.broadcastMsg m)).clients = s.clients := rfl

/-- Folding a list of broadcasts over a single-observer state appends
their envelopes in order. -/
lemma wsRun_broadcasts (msgs : List IncMsg) :
    ∀ ib : List (String × List WsMsg), ∀ o : String,
      ((msgs.map WsEvent.broadcastMsg).foldl wsStep ⟨[o], ib⟩).clients = [o] ∧
      recvd ((msgs.map WsEvent.broadcastMsg).foldl wsStep ⟨[o], ib⟩).inbox o
        = recvd ib o ++ msgs.map WsMsg.inc := by
  induction msgs with
  | nil => intro ib o; simp
  | cons m rest ih =>
      intro ib o
      rw [List.map_cons, List.foldl_cons]
      have hstep : wsStep ⟨[o], ib⟩ (.broadcastMsg m)
          = ⟨[o], (deliverMsg ib o (.inc m))⟩ := by
        simp [wsStep]
      rw [hstep]
      obtain ⟨hcl, hrec⟩ := ih (deliverMsg ib o (.inc m)) o
      exact ⟨hcl, by rw [hrec, recvd_deliverMsg_self]; simp⟩

/-- Counterexample for C3. The schedule "register the connection, one
`sensor_update` broadcast fires (a 2-second `generateSensorData` tick
completing while `sendLatestData` is awaiting its storage reads), then
the snapshot send" is realisable in the code, and under it the
observer's first delivered message is the incremental `sensor_update`,
not `initial_data`. -/
theorem claim_C3_counterexample :
    recvd (wsRun [.connect "a", .broadcastMsg .sensorUpdate, .sendInitial "a"]).inbox "a"
      = [.inc .sensorUpdate, .initialData] ∧
    (recvd (wsRun [.connect "a", .broadcastMsg .sensorUpdate,
        .sendInitial "a"]).inbox "a").head? ≠ some WsMsg.initialData := by
  decide

/-- C3 (amended). A newly connected observer receives exactly one
`initial_data` event per connection, and every incremental envelope
broadcast between the connection's registration and the snapshot send is
delivered to it *before* the `initial_data`; the snapshot comes first
only when no broadcast interleaves the handshake. -/
theorem claim_C3 :
    ∀ (o : String) (mid post : List IncMsg),
      recvd (wsRun (WsEvent.connect o ::
          (mid.map WsEvent.broadcastMsg ++ WsEvent.sendInitial o ::
            post.map WsEvent.broadcastMsg))).inbox o
        = mid.map WsMsg.inc ++ WsMsg.initialData :: post.map WsMsg.inc ∧
      (recvd (wsRun (WsEvent.connect o ::
          (mid.map WsEvent.broadcastMsg ++ WsEvent.sendInitial o ::
            post.map WsEvent.broadcastMsg))).inbox o).count WsMsg.initialData = 1 ∧
      (mid = [] →
        (recvd (wsRun (WsEvent.connect o ::
            (mid.map WsEvent.broadcastMsg ++ WsEvent.sendInitial o ::
              post.map WsEvent.broadcastMsg))).inbox o).head? = some WsMsg.initialData) := by
  intro o mid post
  have hconn : wsStep ⟨[], []⟩ (WsEvent.connect o) = ⟨[o], []⟩ := by simp [wsStep]
  have hrun : recvd (wsRun (WsEvent.connect o ::
      (mid.map WsEvent.broadcastMsg ++ WsEvent.sendInitial o ::
        post.map WsEvent.broadcastMsg))).inbox o
      = mid.map WsMsg.inc ++ WsMsg.initialData :: post.map WsMsg.inc := by
    unfold wsRun
    rw [List.foldl_cons, hconn, List.foldl_append]
    obtain ⟨hcl1, hrec1⟩ := wsRun_broadcasts mid [] o
    have hmid : (mid.map WsEvent.broadcastMsg).foldl wsStep ⟨[o], []⟩
        = ⟨[o], ((mid.map WsEvent.broadcastMsg).foldl wsStep ⟨[o], []⟩).inbox⟩ := by
      rcases hfold : (mid.map WsEvent.broadcastMsg).foldl wsStep ⟨[o], []⟩ with ⟨cl, ib⟩
      rw [hfold] at hcl1
      simp only at hcl1
      rw [hcl1]
    rw [List.foldl_cons]
    set ib1 := ((mid.map WsEvent.broadcastMsg).foldl wsStep ⟨[o], []⟩).inbox with hib1
    rw [hmid]
    have hsend : wsStep ⟨[o], ib1⟩ (WsEvent.sendInitial o) = ⟨[o], deliverMsg ib1 o .initialData⟩ := rfl
    rw [hsend]
    obtain ⟨-, hrec2⟩ := wsRun_broadcasts post (deliverMsg ib1 o .initialData) o
    rw [hrec2, recvd_deliverMsg_self]
    have : recvd ib1 o = mid.map WsMsg.inc := by
      rw [hib1, hrec1]
      simp [recvd]
    rw [this]
    simp
  refine ⟨hrun, ?_, ?_⟩
  · rw [hrun]
    rw [List.count_append, List.count_cons]
    have h1 : (mid.map WsMsg.inc).count WsMsg.initialData = 0 := by
      rw [List.count_eq_zero]
      intro hmem
      rcases List.mem_map.mp hmem with ⟨x, -, hx⟩
      exact WsMsg.noConfusion hx
    have h2 : (post.map WsMsg.inc).count WsMsg.initialData = 0 := by
      rw [List.count_eq_zero]
      intro hmem
      rcases List.mem_map.mp hmem with ⟨x, -, hx⟩
      exact WsMsg.noConfusion hx
    rw [h1, h2]
    simp
  · intro hmid
    subst hmid
    rw [hrun]
    simp

/-- Witness for C3: no broadcast interleaves the handshake, one follows
it; the observer gets the snapshot first and exactly one of it. -/
theorem claim_C3_witness :
    recvd (wsRun (WsEvent.connect "a" ::
        (([] : List IncMsg).map WsEvent.broadcastMsg ++ WsEvent.sendInitial "a" ::
          ([IncMsg.sensorUpdate]).map WsEvent.broadcastMsg))).inbox "a"
      = ([] : List IncMsg).map WsMsg.inc ++
          WsMsg.initialData :: ([IncMsg.sensorUpdate]).map WsMsg.inc ∧
    (recvd (wsRun (WsEvent.connect "a" ::
        (([] : List IncMsg).map WsEvent.broadcastMsg ++ WsEvent.sendInitial "a" ::
          ([IncMsg.sensorUpdate]).map WsEvent.broadcastMsg))).inbox "a").head?
      = some WsMsg.initialData :=
  ⟨(claim_C3 "a" [] [IncMsg.sensorUpdate]).1,
   (claim_C3 "a" [] [IncMsg.sensorUpdate]).2.2 rfl⟩

/-! ## Scenario orchestrator (part_000 / reactor-scenarios.ts, lines 543-685)

`startScenario` while a scenario is running calls `this.stopScenario()`
*without awaiting it*. `stopScenario` synchronously clears the pending
phase timer and initiates the "Nuclear Scenario Stopped" log insert,
then suspends; its continuation (resetting `activeScenario`,
`currentPhase`, `scenarioStartTime`) runs at some later event-loop turn.
`startScenario` then sets the new scenario fields, awaits the start log
insert, awaits `storage.createAlert` for the SCENARIO-CONTROL alert —
which *rejects*, because the call passes `nodeId`/`severity` keys while
`createAlert` reads the NOT NULL `sensorNodeId`/`alertType` columns — so
`startScenario` throws there and `executeCurrentPhase` is never reached.
The model runs the `startScenario` turn as thread A, a sequence of
atomic actions with the stop continuation (thread B, the single
`resetFields` action) interleaved at an arbitrary point chosen by a
boolean schedule; allowing B at *any* point over-approximates the event
loop, which only strengthens the universally quantified theorem. The
phase-0 body (`executeCurrentPhase` for steam-line-break phase 1: the
phase log, three modification logs, two alert conditions, the
recommendation, and the `setTimeout`) is kept in the program even though
the abort at the scenario-control alert makes it unreachable. -/

/-- Atomic actions of the start-while-running transition. -/
inductive SAction where
  | cancelTimer
  | stopLog
  | setScenario
  | startLog
  | startAlert
  | phaseLog
  | modLog
  | phaseAlert
  | phaseRec
  | setTimer
  | resetFields
deriving DecidableEq, Repr

/-- Orchestrator machine state: the `activeScenario` field, the number
of live phase-advance timers (the prior scenario's pending timer counts
as one), and the trace of executed persistent actions. -/
structure OrchState where
  activeScenario : Option String
  liveTimers : ℕ
  trace : List SAction
deriving DecidableEq, Repr

/-- A thread as a program over atomic actions; `ifActive` is the
`if (!this.activeScenario ...)` guard at the top of
`executeCurrentPhase` (line 581). -/
inductive OProg where
  | done
  | act (a : SAction) (k : OProg)
  | ifActive (t e : OProg)
deriving DecidableEq, Repr

/-- Effect of one atomic action. `clearTimeout` removes a live timer
(`liveTimers - 1` also covers the null-handle no-op branch);
`setScenario` installs the new scenario id; `resetFields` is the
stopScenario continuation (no persistent trace of its own); `setTimeout`
adds a live timer; everything else only logs/persists. -/
def applyAction (s : OrchState) : SAction → OrchState
  | .cancelTimer =>
      { s with liveTimers := s.liveTimers - 1, trace := s.trace ++ [SAction.cancelTimer] }
  | .setScenario =>
      { s with activeScenario := some "steam-line-break",
               trace := s.trace ++ [SAction.setScenario] }
  | .resetFields => { s with activeScenario := none }
  | .setTimer =>
      { s with liveTimers := s.liveTimers + 1, trace := s.trace ++ [SAction.setTimer] }
  | a => { s with trace := s.trace ++ [a] }

/-- One step of thread A. `startAlert` and `phaseAlert` are
`storage.createAlert` calls whose payloads lack the NOT NULL
`sensorNodeId`/`alertType` columns (the call sites pass
`nodeId`/`severity`): the awaited insert rejects and the thread aborts
with the attempt in the trace. `phaseRec` first dereferences
`this.activeScenario.name` (a TypeError aborts silently when the stop
continuation has already nulled it) and its insert would likewise reject
(`category` is absent from the payload), so it aborts too. -/
def stepA : OProg → OrchState → OProg × OrchState
  | .done, s => (.done, s)
  | .ifActive t e, s =>
      match s.activeScenario with
      | some _ => (t, s)
      | none => (e, s)
  | .act .startAlert _, s => (.done, { s with trace := s.trace ++ [SAction.startAlert] })
  | .act .phaseAlert _, s => (.done, { s with trace := s.trace ++ [SAction.phaseAlert] })
  | .act .phaseRec _, s =>
      match s.activeScenario with
      | some _ => (.done, { s with trace := s.trace ++ [SAction.phaseRec] })
      | none => (.done, s)
  | .act a k, s => (k, applyAction s a)

/-- Phase-1 body of `executeCurrentPhase` for steam-line-break
(lines 580-626): phase log, three sensor-modification logs, two alert
conditions, the recommendation, the phase-advance `setTimeout`. -/
def phase0Prog : OProg :=
  .act .phaseLog (.act .modLog (.act .modLog (.act .modLog
    (.act .phaseAlert (.act .phaseAlert (.act .phaseRec (.act .setTimer .done)))))))

/-- Program of `startScenario` after the synchronous prefix of `stopScenario`:
install the new scenario fields, start log, scenario-control alert, then
`executeCurrentPhase` behind its guard. -/
def startTail2 : OProg :=
  .act .setScenario (.act .startLog (.act .startAlert (.ifActive phase0Prog .done)))

/-- Program of `startScenario` from the point the stopped-scenario log has been
initiated. -/
def startTail1 : OProg := .act .stopLog startTail2

/-- The whole `startScenario`-while-running turn of thread A:
`stopScenario`'s synchronous prefix (cancel the pending timer, initiate
the stopped log) and then the new scenario's actions. -/
def startWhileRunningProg : OProg := .act .cancelTimer startTail1

/-- The machine state at the moment `startScenario` is called while the
refueling-outage scenario is running with a pending phase timer. -/
def runningInit : OrchState :=
  { activeScenario := some "refueling-outage", liveTimers := 1, trace := [] }

/-- Run thread A against the single-action thread B (the stop
continuation `resetFields`): each schedule entry picks B (`false`, while
it is still pending) or A; every intermediate state is returned. -/
def runOrch : List Bool → OProg → Bool → OrchState → List OrchState
  | [], _, _, s => [s]
  | b :: rest, p, pending, s =>
      if b = false ∧ pending = true then
        s :: runOrch rest p false (applyAction s .resetFields)
      else
        s :: runOrch rest (stepA p s).1 pending (stepA p s).2

/-- Actions belonging to the new scenario's phase-0 execution. -/
def isPhase0 : SAction → Bool
  | .phaseLog => true
  | .modLog => true
  | .phaseAlert => true
  | .phaseRec => true
  | .setTimer => true
  | _ => false

/-- Reachability invariant of the start-while-running run: thread A is
at one of six control points, each with its exact trace and live-timer
count; thread B's interleaved `resetFields` touches neither. -/
def OrchInv (p : OProg) (s : OrchState) : Prop :=
  (p = startWhileRunningProg ∧ s.trace = [] ∧ s.liveTimers = 1) ∨
  (p = startTail1 ∧ s.trace = [SAction.cancelTimer] ∧ s.liveTimers = 0) ∨
  (p = startTail2 ∧ s.trace = [SAction.cancelTimer, SAction.stopLog] ∧ s.liveTimers = 0) ∨
  (p = .act .startLog (.act .startAlert (.ifActive phase0Prog .done)) ∧
    s.trace = [SAction.cancelTimer, SAction.stopLog, SAction.setScenario] ∧
    s.liveTimers = 0) ∨
  (p = .act .startAlert (.ifActive phase0Prog .done) ∧
    s.trace = [SAction.cancelTimer, SAction.stopLog, SAction.setScenario, SAction.startLog] ∧
    s.liveTimers = 0) ∨
  (p = .done ∧
    s.trace = [SAction.cancelTimer, SAction.stopLog, SAction.setScenario, SAction.startLog,
      SAction.startAlert] ∧
    s.liveTimers = 0)

lemma orchInv_stepA (p : OProg) (s : OrchState) (h : OrchInv p s) :
    OrchInv (stepA p s).1 (stepA p s).2 := by
  rcases h with ⟨hp, ht, hn⟩ | ⟨hp, ht, hn⟩ | ⟨hp, ht, hn⟩ | ⟨hp, ht, hn⟩ | ⟨hp, ht, hn⟩ |
    ⟨hp, ht, hn⟩ <;> subst hp
  · refine Or.inr (Or.inl ?_)
    simp [startWhileRunningProg, stepA, applyAction, ht, hn]
  · refine Or.inr (Or.inr (Or.inl ?_))
    simp [startTail1, stepA, applyAction, ht, hn]
  · refine Or.inr (Or.inr (Or.inr (Or.inl ?_)))
    simp [startTail2, stepA, applyAction, ht, hn]
  · refine Or.inr (Or.inr (Or.inr (Or.inr (Or.inl ?_))))
    simp [stepA, applyAction, ht, hn]
  · refine Or.inr (Or.inr (Or.inr (Or.inr (Or.inr ?_))))
    simp [stepA, applyAction, ht, hn]
  · exact Or.inr (Or.inr (Or.inr (Or.inr (Or.inr ⟨rfl, ht, hn⟩))))

lemma orchInv_resetFields (p : OProg) (s : OrchState) (h : OrchInv p s) :
    OrchInv p (applyAction s .resetFields) := by
  rcases h with ⟨hp, ht, hn⟩ | ⟨hp, ht, hn⟩ | ⟨hp, ht, hn⟩ | ⟨hp, ht, hn⟩ | ⟨hp, ht, hn⟩ |
    ⟨hp, ht, hn⟩ <;> subst hp
  · exact Or.inl ⟨rfl, ht, hn⟩
  · exact Or.inr (Or.inl ⟨rfl, ht, hn⟩)
  · exact Or.inr (Or.inr (Or.inl ⟨rfl, ht, hn⟩))
  · exact Or.inr (Or.inr (Or.inr (Or.inl ⟨rfl, ht, hn⟩)))
  · exact Or.inr (Or.inr (Or.inr (Or.inr (Or.inl ⟨rfl, ht, hn⟩))))
  · exact Or.inr (Or.inr (Or.inr (Or.inr (Or.inr ⟨rfl, ht, hn⟩))))

lemma runOrch_inv (sched : List Bool) :
    ∀ (p : OProg) (pending : Bool) (s : OrchState), OrchInv p s →
      ∀ st ∈ runOrch sched p pending s, ∃ q, OrchInv q st := by
  induction sched with
  | nil =>
      intro p pending s h st hst
      rw [runOrch] at hst
      rcases List.mem_singleton.mp hst with rfl
      exact ⟨p, h⟩
  | cons b rest ih =>
      intro p pending s h st hst
      rw [runOrch] at hst
      by_cases hb : b = false ∧ pending = true
      · rw [if_pos hb] at hst
        rcases List.mem_cons.mp hst with rfl | hst'
        · exact ⟨p, h⟩
        · exact ih p false (applyAction s .resetFields) (orchInv_resetFields p s h) st hst'
      · rw [if_neg hb] at hst
        rcases List.mem_cons.mp hst with rfl | hst'
        · exact ⟨p, h⟩
        · exact ih (stepA p s).1 pending (stepA p s).2 (orchInv_stepA p s h) st hst'

/-- C4. In every interleaving of a `startScenario` call made while a
scenario is running (with the floating `stopScenario` continuation
scheduled at any point), every reachable state has at most one live
phase-advance timer, and its trace either contains no phase-0 action or
begins with the timer cancellation followed by the stopped-scenario log
— i.e. the stop transition's observable steps precede any phase-0
action of the new scenario. (In the code phase 0 is in fact never
reached: `startScenario` aborts at the scenario-control alert insert,
whose payload lacks the NOT NULL alert columns.) -/
theorem claim_C4 :
    ∀ (sched : List Bool) (st : OrchState),
      st ∈ runOrch sched startWhileRunningProg true runningInit →
      st.liveTimers ≤ 1 ∧
      (st.trace.filter (fun a => isPhase0 a) = [] ∨
        st.trace.take 2 = [SAction.cancelTimer, SAction.stopLog]) := by
  intro sched st hst
  have hinit : OrchInv startWhileRunningProg runningInit := Or.inl ⟨rfl, rfl, rfl⟩
  obtain ⟨q, hq⟩ := runOrch_inv sched startWhileRunningProg true runningInit hinit st hst
  rcases hq with ⟨-, ht, hn⟩ | ⟨-, ht, hn⟩ | ⟨-, ht, hn⟩ | ⟨-, ht, hn⟩ | ⟨-, ht, hn⟩ |
    ⟨-, ht, hn⟩ <;> rw [ht, hn] <;> exact ⟨by decide, by decide⟩

/-- Witness for C4: the one-step schedule that lets the stop
continuation run first; the initial state is reachable and satisfies
both conclusions. -/
theorem claim_C4_witness :
    runningInit.liveTimers ≤ 1 ∧
    (runningInit.trace.filter (fun a => isPhase0 a) = [] ∨
      runningInit.trace.take 2 = [SAction.cancelTimer, SAction.stopLog]) :=
  claim_C4 [false] runningInit (by decide)

end Atlas
